import Mathlib

/-!
Shallow embedding of the `clh_utils` repository pieces the specification
talks about:

* `src/dl_ext/pytorch_ext/optim.py` — the `OneCycleScheduler` class
  (constructor `__init__`, helper `_format_param`, method `get_lr`) and the
  module-level function `annealing_cos`.  Python floats are modelled by `ℝ`,
  Python `raise` by `Except SchedErr`, the optimizer's mutable parameter-group
  dictionaries by a list of `ParamGroup` records threaded explicitly.
* `src/dl_ext/vision_ext/datasets/kitti/io/image_info.py` — the
  `_ImageInfoCache` process-wide singleton and `load_image_info`.  The hidden
  class attribute `_ImageInfoCache.instance` is threaded as an
  `Option ImageInfoCacheInst` value; the filesystem/pickle work done by
  `load_info` is abstracted into a function argument.

Spec-side definitions used for refinement comparisons (`cosine_anneal`,
`spec_lr`, `spec_momentum`) are written from the specification's own words
and clearly marked as such.
-/

/-- One optimizer parameter group: a dictionary with a `lr` entry and,
when present, a `momentum` entry (`none` models a dict without the key,
reading which raises `KeyError`). -/
structure ParamGroup where
  lr : ℝ
  momentum : Option ℝ

/-- The optimizer handle: its ordered `param_groups` list and whether
`momentum` is a key of `optimizer.defaults` (true for SGD-like optimizers,
false for e.g. Adam). -/
structure Optimizer where
  param_groups : List ParamGroup
  defaults_has_momentum : Bool

/-- A constructor argument that Python would pass as either a number or a
`list`/`tuple` of numbers (`max_lr`, `base_momentum`, `max_momentum`). -/
inductive ParamArg where
  | scalar (v : ℝ)
  | seq (vs : List ℝ)

/-- The exceptions the embedded code can raise: `TypeError`, `ValueError`
and `KeyError`, each with the Python message (or missing key). -/
inductive SchedErr where
  | typeError (msg : String)
  | valueError (msg : String)
  | keyError (key : String)
deriving DecidableEq

/-- The attributes `OneCycleScheduler.__init__` stores on `self`
(`self.last_epoch` itself is maintained by the torch `_LRScheduler` base
class and is passed to `get_lr` explicitly below). -/
structure SchedState where
  base_lrs : List ℝ
  max_lrs : List ℝ
  step_size_up : ℝ
  step_size_down : ℝ
  total_size : ℝ
  step_ratio : ℝ
  cycle_momentum : Bool
  base_momentums : List ℝ
  max_momentums : List ℝ

/-- Source `annealing_cos(start, end, pct)` in `optim.py`: cosine anneal
from `start` to `end` as `pct` goes from 0.0 to 1.0
(`cos_out = np.cos(np.pi * pct) + 1; return end + (start - end) / 2 * cos_out`). -/
noncomputable def annealing_cos (start endv pct : ℝ) : ℝ :=
  endv + (start - endv) / 2 * (Real.cos (Real.pi * pct) + 1)

/-- Source `OneCycleScheduler._format_param(name, optimizer, param)`:
a `list`/`tuple` must have exactly one value per parameter group, otherwise
`ValueError("expected {n} values for {name}, got {m}")`; anything else is
broadcast as `[param] * len(optimizer.param_groups)`. -/
def format_param (name : String) (ngroups : Nat) (param : ParamArg) :
    Except SchedErr (List ℝ) :=
  match param with
  | ParamArg.seq vs =>
      if vs.length ≠ ngroups then
        Except.error (SchedErr.valueError
          ("expected " ++ toString ngroups ++ " values for " ++ name ++
            ", got " ++ toString vs.length))
      else
        Except.ok vs
  | ParamArg.scalar v => Except.ok (List.replicate ngroups v)

/-- The expression `max_lr / div_factor` of `__init__`: defined on a number,
a `TypeError` on a `list`/`tuple` (Python cannot divide a list by a float). -/
noncomputable def paramDiv (param : ParamArg) (d : ℝ) : Except SchedErr ℝ :=
  match param with
  | ParamArg.scalar v => Except.ok (v / d)
  | ParamArg.seq _ =>
      Except.error (SchedErr.typeError
        "unsupported operand type(s) for /: list and float")

/-- The loop `for lr, group in zip(base_lrs, optimizer.param_groups):
group['lr'] = lr` — writes the zipped prefix, leaves the rest untouched. -/
def writeLrs : List ParamGroup → List ℝ → List ParamGroup
  | g :: gs, v :: vs => { g with lr := v } :: writeLrs gs vs
  | gs, [] => gs
  | [], _ :: _ => []

/-- The loop `for momentum, group in zip(momentums, optimizer.param_groups):
group['momentum'] = momentum` (also used by `get_lr`'s write-back). -/
def writeMomentums : List ParamGroup → List ℝ → List ParamGroup
  | g :: gs, v :: vs => { g with momentum := some v } :: writeMomentums gs vs
  | gs, [] => gs
  | [], _ :: _ => []

/-- The expression `list(map(lambda group: group['momentum'],
optimizer.param_groups))` of `__init__`: raises `KeyError('momentum')` as
soon as a group has no `momentum` key. -/
def readMomentums : List ParamGroup → Except SchedErr (List ℝ)
  | [] => Except.ok []
  | g :: gs =>
      match g.momentum with
      | none => Except.error (SchedErr.keyError "momentum")
      | some m =>
          match readMomentums gs with
          | Except.error e => Except.error e
          | Except.ok ms => Except.ok (m :: ms)

/-- The `if cycle_momentum:` block of `__init__`: the
`'momentum' not in optimizer.defaults` check, the `base_momentum`
formatting, and — on a fresh start only — the momentum write into the
groups; evaluates to the group list the block leaves behind. -/
def momGroups (optimizer : Optimizer) (cycle_momentum : Bool)
    (base_momentum : ParamArg) (last_epoch : ℤ)
    (groups1 : List ParamGroup) : Except SchedErr (List ParamGroup) :=
  if cycle_momentum then
    if optimizer.defaults_has_momentum then
      match format_param "base_momentum"
          optimizer.param_groups.length base_momentum with
      | Except.error e => Except.error e
      | Except.ok base_momentums =>
          Except.ok (if last_epoch = -1 then
            writeMomentums groups1 base_momentums else groups1)
    else
      Except.error (SchedErr.valueError
        "optimizer must support momentum with `cycle_momentum` option enabled")
  else Except.ok groups1

/-- Source `OneCycleScheduler.__init__` (the body up to the delegating
`super().__init__(optimizer, last_epoch)` call, which belongs to the
external torch base class): computes `start_lr = max_lr / div_factor`,
formats and (on a fresh start, `last_epoch == -1`) writes the base learning
rates, formats `max_lr`, derives the step sizes, handles the
`cycle_momentum` block, snapshots `base_momentums` from the groups
unconditionally, and formats `max_momentum`.  The result is the stored
scheduler attributes plus the mutated optimizer. -/
noncomputable def OneCycleScheduler.init (optimizer : Optimizer)
    (max_lr : ParamArg) (total_steps : ℤ) (pct_start div_factor : ℝ)
    (cycle_momentum : Bool) (base_momentum max_momentum : ParamArg)
    (last_epoch : ℤ) : Except SchedErr (SchedState × Optimizer) :=
  match paramDiv max_lr div_factor with
  | Except.error e => Except.error e
  | Except.ok start_lr =>
    match format_param "base_lr" optimizer.param_groups.length
        (ParamArg.scalar start_lr) with
    | Except.error e => Except.error e
    | Except.ok base_lrs =>
      let groups1 :=
        if last_epoch = -1 then writeLrs optimizer.param_groups base_lrs
        else optimizer.param_groups
      match format_param "max_lr" optimizer.param_groups.length max_lr with
      | Except.error e => Except.error e
      | Except.ok max_lrs =>
        match momGroups optimizer cycle_momentum base_momentum last_epoch
            groups1 with
        | Except.error e => Except.error e
        | Except.ok groups2 =>
          match readMomentums groups2 with
          | Except.error e => Except.error e
          | Except.ok base_momentums =>
            match format_param "max_momentum"
                optimizer.param_groups.length max_momentum with
            | Except.error e => Except.error e
            | Except.ok max_momentums =>
              Except.ok
                ({ base_lrs := base_lrs
                   max_lrs := max_lrs
                   step_size_up := (total_steps : ℝ) * pct_start
                   step_size_down :=
                     (total_steps : ℝ) - (total_steps : ℝ) * pct_start
                   total_size := (total_steps : ℝ)
                   step_ratio := pct_start
                   cycle_momentum := cycle_momentum
                   base_momentums := base_momentums
                   max_momentums := max_momentums },
                 { optimizer with param_groups := groups2 })

/-- The per-group learning-rate expression of `get_lr`:
`annealing_cos(base_lr, max_lr, last_epoch / step_size_up)` while
`x = last_epoch / total_size` satisfies `x <= step_ratio`, the ramp-down
expression otherwise. -/
noncomputable def computeLr (st : SchedState) (last_epoch base_lr max_lr : ℝ) : ℝ :=
  if last_epoch / st.total_size ≤ st.step_ratio then
    annealing_cos base_lr max_lr (last_epoch / st.step_size_up)
  else
    annealing_cos max_lr base_lr
      ((last_epoch - st.step_size_up) / st.step_size_down)

/-- The per-group momentum expression of `get_lr`: same phase test, with
`max_momentum` and `base_momentum` passed to `annealing_cos` in the order
opposite to the learning rate's. -/
noncomputable def computeMomentum (st : SchedState)
    (last_epoch base_momentum max_momentum : ℝ) : ℝ :=
  if last_epoch / st.total_size ≤ st.step_ratio then
    annealing_cos max_momentum base_momentum (last_epoch / st.step_size_up)
  else
    annealing_cos base_momentum max_momentum
      ((last_epoch - st.step_size_up) / st.step_size_down)

/-- Source `OneCycleScheduler.get_lr(self)`: builds the `lrs` list over
`zip(self.base_lrs, self.max_lrs)`, and when `self.cycle_momentum` is set
also builds the momentum list over `zip(self.base_momentums,
self.max_momentums)` and writes it into `self.optimizer.param_groups`
before returning `lrs`.  `last_epoch` is `self.last_epoch` (maintained by
the torch base class), `opt` the current optimizer. -/
noncomputable def OneCycleScheduler.get_lr (st : SchedState) (last_epoch : ℝ)
    (opt : Optimizer) : List ℝ × Optimizer :=
  let lrs := (st.base_lrs.zip st.max_lrs).map
    (fun p => computeLr st last_epoch p.1 p.2)
  if st.cycle_momentum then
    let momentums := (st.base_momentums.zip st.max_momentums).map
      (fun p => computeMomentum st last_epoch p.1 p.2)
    (lrs, { opt with param_groups := writeMomentums opt.param_groups momentums })
  else
    (lrs, opt)

/-- Modelled from the spec's words (§4.2): `cosine_anneal(start, end, pct) =
end + (start - end) / 2 * (cos(pi * pct) + 1)`.  Used only to compare the
source's policy against the specification. -/
noncomputable def cosine_anneal (start endv pct : ℝ) : ℝ :=
  endv + (start - endv) / 2 * (Real.cos (Real.pi * pct) + 1)

/-- Modelled from the spec's words (§4.2): the two-phase learning-rate
policy, `x = step_index / total_steps`, ramp-up iff `x <= pct_start`. -/
noncomputable def spec_lr (base_lr max_lr total_steps pct_start
    step_size_up step_size_down step_index : ℝ) : ℝ :=
  if step_index / total_steps ≤ pct_start then
    cosine_anneal base_lr max_lr (step_index / step_size_up)
  else
    cosine_anneal max_lr base_lr ((step_index - step_size_up) / step_size_down)

/-- Modelled from the spec's words (§4.2): the inverted two-phase momentum
policy. -/
noncomputable def spec_momentum (base_momentum max_momentum total_steps
    pct_start step_size_up step_size_down step_index : ℝ) : ℝ :=
  if step_index / total_steps ≤ pct_start then
    cosine_anneal max_momentum base_momentum (step_index / step_size_up)
  else
    cosine_anneal base_momentum max_momentum
      ((step_index - step_size_up) / step_size_down)

/-- The state `_ImageInfoCache.get_instance` builds on first use: the
`root` and `split` it was called with and the `infos` list produced by
`post_init`/`load_info` (disk scan or unpickle, abstracted below into a
function argument). -/
structure ImageInfoCacheInst where
  root : String
  split : String
  infos : List (Nat × Nat × Nat)

/-- Source `_ImageInfoCache.get_instance(root, split)`: the process-wide
class attribute `instance` is threaded as the `inst` argument; on `none` a
new instance is built for the given `(root, split)` (with `load_info`
standing for the disk-backed `post_init`), otherwise the existing instance
is returned unchanged, its arguments ignored. -/
def ImageInfoCache.get_instance
    (load_info : String → String → List (Nat × Nat × Nat))
    (inst : Option ImageInfoCacheInst) (root split : String) :
    ImageInfoCacheInst × Option ImageInfoCacheInst :=
  match inst with
  | none =>
      let i : ImageInfoCacheInst :=
        { root := root, split := split, infos := load_info root split }
      (i, some i)
  | some i => (i, some i)

/-- Python list indexing `xs[i]` on an `int` index: negative indices count
from the end, out-of-range indices raise `IndexError` (`none` here). -/
def pyIndex {α : Type} (xs : List α) (i : ℤ) : Option α :=
  if 0 ≤ i then xs.get? i.toNat
  else if 0 ≤ i + (xs.length : ℤ) then xs.get? (i + (xs.length : ℤ)).toNat
  else none

/-- Source `load_image_info(kitti_root, split, imgid)`: fetches the
singleton via `get_instance` and returns `instance.infos[imgid]` (the
source's `int(imgid)` coercion of string ids is reflected by taking the
index as `ℤ` directly). -/
def load_image_info
    (load_info : String → String → List (Nat × Nat × Nat))
    (inst : Option ImageInfoCacheInst) (kitti_root split : String)
    (imgid : ℤ) : Option (Nat × Nat × Nat) × Option ImageInfoCacheInst :=
  let r := ImageInfoCache.get_instance load_info inst kitti_root split
  (pyIndex r.1.infos imgid, r.2)

/-! ## Helper lemmas -/

/-- Writing learning rates never touches the `momentum` entries. -/
theorem momentum_map_writeLrs (gs : List ParamGroup) (vs : List ℝ) :
    (writeLrs gs vs).map ParamGroup.momentum = gs.map ParamGroup.momentum := by
  induction gs generalizing vs with
  | nil => cases vs <;> rfl
  | cons g gs ih => cases vs with
    | nil => rfl
    | cons v vs => simp [writeLrs, ih]

/-- Reading the momentum entries succeeds exactly on the values present. -/
theorem readMomentums_ok (gs : List ParamGroup) (ms : List ℝ)
    (h : readMomentums gs = Except.ok ms) :
    gs.map ParamGroup.momentum = ms.map some := by
  induction gs generalizing ms with
  | nil =>
    simp only [readMomentums] at h
    cases h
    rfl
  | cons g gs ih =>
    simp only [readMomentums] at h
    cases hm : g.momentum with
    | none => rw [hm] at h; cases h
    | some m =>
      rw [hm] at h
      cases hrec : readMomentums gs with
      | error e => rw [hrec] at h; cases h
      | ok ms' =>
        rw [hrec] at h
        cases h
        simp [hm, ih ms' hrec]

/-- `writeMomentums` keeps the list of groups the same length. -/
theorem length_writeMomentums (gs : List ParamGroup) (vs : List ℝ) :
    (writeMomentums gs vs).length = gs.length := by
  induction gs generalizing vs with
  | nil => cases vs <;> rfl
  | cons g gs ih => cases vs with
    | nil => rfl
    | cons v vs => simp [writeMomentums, ih]

/-! ## Sample data for witnesses -/

/-- A two-group SGD-like optimizer (momentum supported and present). -/
noncomputable def optTwo : Optimizer :=
  { param_groups :=
      [{ lr := 0.1, momentum := some 0.9 }, { lr := 0.1, momentum := some 0.9 }],
    defaults_has_momentum := true }

/-- A one-group Adam-like optimizer: no momentum hyperparameter at all. -/
noncomputable def optNoMomentum : Optimizer :=
  { param_groups := [{ lr := 0.1, momentum := none }],
    defaults_has_momentum := false }

/-! ## C7 — `cycle_momentum` against a momentum-less optimizer kind -/

/-- C7: if `cycle_momentum` is true and `momentum` is not a key of
`optimizer.defaults`, `OneCycleScheduler.__init__` raises the `ValueError`
saying the optimizer must support momentum — the failure happens during
construction, whatever the other arguments and the resume step are. -/
theorem cycle_momentum_unsupported_raises (opt : Optimizer) (v : ℝ) (T : ℤ)
    (ps df : ℝ) (bm mm : ParamArg) (le : ℤ)
    (h : opt.defaults_has_momentum = false) :
    OneCycleScheduler.init opt (ParamArg.scalar v) T ps df true bm mm le =
      Except.error (SchedErr.valueError
        "optimizer must support momentum with `cycle_momentum` option enabled") := by
  simp [OneCycleScheduler.init, momGroups, paramDiv, format_param, h]

/-- C7 witness: the Adam-like optimizer with default arguments. -/
theorem cycle_momentum_unsupported_raises_witness :
    optNoMomentum.defaults_has_momentum = false ∧
    OneCycleScheduler.init optNoMomentum (ParamArg.scalar 0.1) 100 0.3 25 true
        (ParamArg.scalar 0.85) (ParamArg.scalar 0.95) (-1) =
      Except.error (SchedErr.valueError
        "optimizer must support momentum with `cycle_momentum` option enabled") :=
  ⟨rfl, cycle_momentum_unsupported_raises optNoMomentum 0.1 100 0.3 25
    (ParamArg.scalar 0.85) (ParamArg.scalar 0.95) (-1) rfl⟩

/-! ## C9 — the momentum snapshot runs even with `cycle_momentum=False` -/

/-- C9: `self.base_momentums = list(map(lambda group: group['momentum'],
optimizer.param_groups))` runs unconditionally, so for any optimizer with at
least one parameter group, none of whose groups has a `momentum` entry,
construction with `cycle_momentum=False` raises `KeyError('momentum')`
instead of succeeding with momentum cycling disabled. -/
theorem momentum_read_unconditional_raises (opt : Optimizer) (v : ℝ) (T : ℤ)
    (ps df : ℝ) (bm mm : ParamArg) (le : ℤ)
    (hne : opt.param_groups ≠ [])
    (hnone : ∀ g ∈ opt.param_groups, g.momentum = none) :
    OneCycleScheduler.init opt (ParamArg.scalar v) T ps df false bm mm le =
      Except.error (SchedErr.keyError "momentum") := by
  cases hgs : opt.param_groups with
  | nil => exact absurd hgs hne
  | cons g gs =>
    have hg : g.momentum = none := hnone g (by rw [hgs]; exact List.mem_cons_self g gs)
    by_cases hle : le = -1 <;>
      simp [OneCycleScheduler.init, momGroups, paramDiv, format_param, hgs,
        hle, List.replicate_succ, writeLrs, readMomentums, hg]

/-- C9 witness: a one-group optimizer without a `momentum` entry, with
`cycle_momentum=False`, still fails at construction. -/
theorem momentum_read_unconditional_raises_witness :
    optNoMomentum.param_groups ≠ [] ∧
    (∀ g ∈ optNoMomentum.param_groups, g.momentum = none) ∧
    OneCycleScheduler.init optNoMomentum (ParamArg.scalar 0.1) 100 0.3 25 false
        (ParamArg.scalar 0.85) (ParamArg.scalar 0.95) (-1) =
      Except.error (SchedErr.keyError "momentum") :=
  ⟨by simp [optNoMomentum], by simp [optNoMomentum],
    momentum_read_unconditional_raises optNoMomentum 0.1 100 0.3 25
      (ParamArg.scalar 0.85) (ParamArg.scalar 0.95) (-1)
      (by simp [optNoMomentum]) (by simp [optNoMomentum])⟩

/-! ## C2 — a `max_lr` sequence dies before `_format_param` can check it -/

/-- C2 (code bug record): passing `max_lr` as a list — here of the matching
length 2 for the two-group optimizer — makes `__init__` raise `TypeError`
at `start_lr = max_lr / div_factor`, before `_format_param('max_lr', ...)`
ever runs, so no list-valued `max_lr` is accepted and the documented
count-mismatch `ValueError` for `max_lr` is unreachable. -/
theorem max_lr_list_raises_type_error :
    OneCycleScheduler.init optTwo (ParamArg.seq [0.1, 0.1]) 100 0.3 25 true
        (ParamArg.scalar 0.85) (ParamArg.scalar 0.95) (-1) =
      Except.error (SchedErr.typeError
        "unsupported operand type(s) for /: list and float") := by
  simp [OneCycleScheduler.init, paramDiv]

/-! ## C8 — the image-info cache honours only the first `(root, split)` -/

/-- C8: the first `load_image_info` call fixes the process-wide instance to
the first `(root, split)` pair (with the infos computed for that pair), and
every later call — whatever `root`, `split` and index it passes — answers
from the stored instance's `infos` list and leaves the instance unchanged,
raising nothing about the differing arguments. -/
theorem image_info_cache_first_instance_wins
    (load_info : String → String → List (Nat × Nat × Nat))
    (root0 split0 : String) (j : ℤ) (inst : ImageInfoCacheInst)
    (root split : String) (i : ℤ) :
    (load_image_info load_info none root0 split0 j).2 =
      some { root := root0, split := split0, infos := load_info root0 split0 } ∧
    load_image_info load_info (some inst) root split i =
      (pyIndex inst.infos i, some inst) :=
  ⟨rfl, rfl⟩

/-! ## More helper lemmas for the step policy -/

/-- The learning-rate list `get_lr` returns, with or without momentum
cycling. -/
theorem get_lr_fst (st : SchedState) (s : ℝ) (opt : Optimizer) :
    (OneCycleScheduler.get_lr st s opt).1 =
      (st.base_lrs.zip st.max_lrs).map (fun p => computeLr st s p.1 p.2) := by
  cases h : st.cycle_momentum <;> simp [OneCycleScheduler.get_lr, h]

/-- `annealing_cos` starts at `start` (`pct = 0`). -/
theorem annealing_cos_zero (a b : ℝ) : annealing_cos a b 0 = a := by
  simp [annealing_cos]
  ring

/-- `annealing_cos` ends at `end` (`pct = 1`). -/
theorem annealing_cos_one (a b : ℝ) : annealing_cos a b 1 = b := by
  simp [annealing_cos, Real.cos_pi]

/-- Inversion of a successful `__init__` with a scalar `max_lr`: the derived
per-group arrays and step sizes it stores. -/
theorem init_ok_fields (opt : Optimizer) (maxv : ℝ) (T : ℤ) (ps df : ℝ)
    (cm : Bool) (bm mm : ParamArg) (le : ℤ) (st : SchedState) (opt' : Optimizer)
    (h : OneCycleScheduler.init opt (ParamArg.scalar maxv) T ps df cm bm mm le =
      Except.ok (st, opt')) :
    st.base_lrs = List.replicate opt.param_groups.length (maxv / df) ∧
    st.max_lrs = List.replicate opt.param_groups.length maxv ∧
    st.step_size_up = (T : ℝ) * ps ∧
    st.step_size_down = (T : ℝ) - (T : ℝ) * ps ∧
    st.total_size = (T : ℝ) ∧
    st.step_ratio = ps ∧
    st.cycle_momentum = cm := by
  simp only [OneCycleScheduler.init, paramDiv, format_param] at h
  repeat' split at h
  all_goals cases h
  all_goals simp

/-! ## C1 — endpoints of the schedule on a fresh start -/

/-- C1: for any configuration with `total_steps > 0`, `pct_start` in (0,1),
`div_factor > 0` and a fresh start (`last_epoch = -1`), the learning-rate
list the step policy computes equals `base_lr[i] = max_lr[i] / div_factor`
for every group at `step_index = 0`, equals `max_lr[i]` at
`step_index = step_size_up` (ramp-up branch taken inclusively at the
boundary), and equals `base_lr[i]` again at `step_index = total_steps`. -/
theorem one_cycle_fresh_start_endpoint_lrs (opt opt2 : Optimizer) (maxv : ℝ)
    (T : ℤ) (ps df : ℝ) (cm : Bool) (bm mm : ParamArg) (st : SchedState)
    (opt' : Optimizer) (hT : 0 < T) (hps0 : 0 < ps) (hps1 : ps < 1)
    (hdf : 0 < df)
    (hinit : OneCycleScheduler.init opt (ParamArg.scalar maxv) T ps df cm bm mm
      (-1) = Except.ok (st, opt')) :
    (OneCycleScheduler.get_lr st 0 opt2).1 =
      List.replicate opt.param_groups.length (maxv / df) ∧
    (OneCycleScheduler.get_lr st st.step_size_up opt2).1 =
      List.replicate opt.param_groups.length maxv ∧
    (OneCycleScheduler.get_lr st ((T : ℤ) : ℝ) opt2).1 =
      List.replicate opt.param_groups.length (maxv / df) := by
  obtain ⟨hb, hm, hup, hdown, htot, hratio, -⟩ :=
    init_ok_fields opt maxv T ps df cm bm mm (-1) st opt' hinit
  have hT' : (0 : ℝ) < (T : ℝ) := by exact_mod_cast hT
  have hTne : ((T : ℝ)) ≠ 0 := ne_of_gt hT'
  have hupne : (T : ℝ) * ps ≠ 0 := mul_ne_zero hTne (ne_of_gt hps0)
  have hdownpos : (0 : ℝ) < (T : ℝ) - (T : ℝ) * ps := by nlinarith
  have hzip : st.base_lrs.zip st.max_lrs =
      List.replicate opt.param_groups.length (maxv / df, maxv) := by
    rw [hb, hm]
    simp
  have h1 : computeLr st 0 (maxv / df) maxv = maxv / df := by
    simp only [computeLr, htot, hratio, hup]
    rw [zero_div, if_pos hps0.le, zero_div, annealing_cos_zero]
  have h2 : computeLr st st.step_size_up (maxv / df) maxv = maxv := by
    simp only [computeLr, htot, hratio, hup]
    have hc : ((T : ℝ) * ps) / (T : ℝ) ≤ ps := by
      rw [mul_comm, mul_div_assoc, div_self hTne, mul_one]
    rw [if_pos hc, div_self hupne, annealing_cos_one]
  have h3 : computeLr st ((T : ℤ) : ℝ) (maxv / df) maxv = maxv / df := by
    simp only [computeLr, htot, hratio, hup, hdown]
    have hc : ¬ ((T : ℝ) / (T : ℝ) ≤ ps) := by
      rw [div_self hTne]
      linarith
    rw [if_neg hc, div_self (ne_of_gt hdownpos), annealing_cos_one]
  refine ⟨?_, ?_, ?_⟩ <;> rw [get_lr_fst, hzip] <;>
    simp only [List.map_replicate]
  · rw [h1]
  · rw [h2]
  · rw [h3]

/-- The scheduler state the spec's §8 scenario produces: two groups,
`max_lr=0.1`, `total_steps=100`, `pct_start=0.3`, `div_factor=25`, defaults
for the momentum arguments, fresh start. -/
noncomputable def stTwo : SchedState :=
  { base_lrs := [0.004, 0.004]
    max_lrs := [0.1, 0.1]
    step_size_up := 30
    step_size_down := 70
    total_size := 100
    step_ratio := 0.3
    cycle_momentum := true
    base_momentums := [0.85, 0.85]
    max_momentums := [0.95, 0.95] }

/-- The optimizer as mutated by the scenario's fresh-start construction. -/
noncomputable def optTwoAfter : Optimizer :=
  { param_groups :=
      [{ lr := 0.004, momentum := some 0.85 },
       { lr := 0.004, momentum := some 0.85 }],
    defaults_has_momentum := true }

/-- Evaluating the scenario's construction. -/
theorem initTwo_eval :
    OneCycleScheduler.init optTwo (ParamArg.scalar 0.1) 100 0.3 25 true
        (ParamArg.scalar 0.85) (ParamArg.scalar 0.95) (-1) =
      Except.ok (stTwo, optTwoAfter) := by
  norm_num [OneCycleScheduler.init, momGroups, paramDiv, format_param,
    optTwo, stTwo, optTwoAfter, writeLrs, writeMomentums, readMomentums,
    List.replicate]

/-- C1 witness: the spec's §8 scenario, `[0.004, 0.004]` at step 0,
`[0.1, 0.1]` at step 30 (the boundary), `[0.004, 0.004]` at step 100. -/
theorem one_cycle_fresh_start_endpoint_lrs_witness :
    (0 : ℤ) < 100 ∧ (0 : ℝ) < 0.3 ∧ (0.3 : ℝ) < 1 ∧ (0 : ℝ) < 25 ∧
    (OneCycleScheduler.get_lr stTwo 0 optTwoAfter).1 = [0.004, 0.004] ∧
    (OneCycleScheduler.get_lr stTwo 30 optTwoAfter).1 = [0.1, 0.1] ∧
    (OneCycleScheduler.get_lr stTwo 100 optTwoAfter).1 = [0.004, 0.004] := by
  have h := one_cycle_fresh_start_endpoint_lrs optTwo optTwoAfter 0.1 100 0.3
    25 true (ParamArg.scalar 0.85) (ParamArg.scalar 0.95) stTwo optTwoAfter
    (by norm_num) (by norm_num) (by norm_num) (by norm_num) initTwo_eval
  obtain ⟨h0, hup, hT⟩ := h
  have elen : optTwo.param_groups.length = 2 := rfl
  have eup : stTwo.step_size_up = (30 : ℝ) := rfl
  rw [elen] at h0 hup hT
  rw [eup] at hup
  have er1 : List.replicate 2 ((0.1 : ℝ) / 25) = [0.1 / 25, 0.1 / 25] := rfl
  have er2 : List.replicate 2 ((0.1 : ℝ)) = [0.1, 0.1] := rfl
  rw [er1] at h0 hT
  rw [er2] at hup
  norm_num at h0 hup hT
  refine ⟨by norm_num, by norm_num, by norm_num, by norm_num, ?_, ?_, ?_⟩
  · rw [h0]
    norm_num
  · rw [hup]
    norm_num
  · rw [hT]
    norm_num

/-! ## C3 — the computed learning rate follows the spec's two-phase policy -/

/-- C3: for every step index in `[0, total_steps]` and every group `i`, the
learning rate `get_lr` computes equals the spec's policy `spec_lr` — ramp-up
`cosine_anneal(base_lr[i], max_lr[i], step_index / step_size_up)` when
`step_index / total_steps <= pct_start` (inclusive), ramp-down
`cosine_anneal(max_lr[i], base_lr[i], (step_index - step_size_up) /
step_size_down)` otherwise. -/
theorem get_lr_matches_spec_policy (st : SchedState) (s : ℝ) (opt : Optimizer)
    (i : Nat) (hi : i < st.base_lrs.length) (hi' : i < st.max_lrs.length)
    (h0 : 0 ≤ s) (h1 : s ≤ st.total_size) :
    (OneCycleScheduler.get_lr st s opt).1[i]? =
      some (spec_lr st.base_lrs[i] st.max_lrs[i] st.total_size st.step_ratio
        st.step_size_up st.step_size_down s) := by
  have hz : i < ((st.base_lrs.zip st.max_lrs).map
      (fun p => computeLr st s p.1 p.2)).length := by
    simpa using ⟨hi, hi'⟩
  rw [get_lr_fst, List.getElem?_eq_getElem hz]
  simp only [List.getElem_map, List.getElem_zip]
  simp [computeLr, spec_lr, annealing_cos, cosine_anneal]

/-- C3 witness: the scenario state at step 0, group 0. -/
theorem get_lr_matches_spec_policy_witness :
    0 < stTwo.base_lrs.length ∧ 0 < stTwo.max_lrs.length ∧
    (0 : ℝ) ≤ 0 ∧ (0 : ℝ) ≤ stTwo.total_size ∧
    (OneCycleScheduler.get_lr stTwo 0 optTwoAfter).1[0]? =
      some (spec_lr 0.004 0.1 100 0.3 30 70 0) := by
  have h := get_lr_matches_spec_policy stTwo 0 optTwoAfter 0 (by norm_num [stTwo])
    (by norm_num [stTwo]) le_rfl (by norm_num [stTwo])
  refine ⟨by norm_num [stTwo], by norm_num [stTwo], le_rfl,
    by norm_num [stTwo], ?_⟩
  convert h using 2 <;> norm_num [stTwo]

/-- Element `i` of a full-prefix momentum write. -/
theorem writeMomentums_getElem? (gs : List ParamGroup) (vs : List ℝ) (i : Nat)
    (hg : i < gs.length) (hv : i < vs.length) :
    (writeMomentums gs vs)[i]? =
      some { gs[i] with momentum := some vs[i] } := by
  induction gs generalizing vs i with
  | nil => simp at hg
  | cons g gs ih =>
    cases vs with
    | nil => simp at hv
    | cons v vs =>
      cases i with
      | zero => simp [writeMomentums]
      | succ n =>
        simp only [writeMomentums, List.getElem?_cons_succ,
          List.getElem_cons_succ]
        exact ih vs n (by simpa using hg) (by simpa using hv)

/-- A momentum write over lists of equal length, as a map over their zip. -/
theorem writeMomentums_eq_zip_map (gs : List ParamGroup) (vs : List ℝ)
    (h : gs.length = vs.length) :
    writeMomentums gs vs =
      (gs.zip vs).map (fun q => { q.1 with momentum := some q.2 }) := by
  induction gs generalizing vs with
  | nil => cases vs with
    | nil => rfl
    | cons v vs => simp at h
  | cons g gs ih =>
    cases vs with
    | nil => simp at h
    | cons v vs => simp [writeMomentums, ih vs (by simpa using h)]

/-! ## C4 — inverted momentum, written to the groups, not returned -/

/-- C4: with `cycle_momentum` on, group `i`'s momentum after `get_lr` is the
spec's inverted policy value `spec_momentum` for the current step, the
group's `lr` entry is untouched by `get_lr` itself, and the returned list
holds exactly the per-group learning rates (the spec's `spec_lr` values, in
group order) — no momentum value is part of it. -/
theorem momentum_inverted_written_not_returned (st : SchedState) (s : ℝ)
    (opt : Optimizer) (i : Nat) (hcm : st.cycle_momentum = true)
    (hbi : i < st.base_momentums.length) (hmi : i < st.max_momentums.length)
    (hgi : i < opt.param_groups.length)
    (hgi2 : i < (OneCycleScheduler.get_lr st s opt).2.param_groups.length) :
    ((OneCycleScheduler.get_lr st s opt).2.param_groups[i]).momentum =
      some (spec_momentum st.base_momentums[i] st.max_momentums[i]
        st.total_size st.step_ratio st.step_size_up st.step_size_down s) ∧
    ((OneCycleScheduler.get_lr st s opt).2.param_groups[i]).lr =
      (opt.param_groups[i]).lr ∧
    (OneCycleScheduler.get_lr st s opt).1 =
      (st.base_lrs.zip st.max_lrs).map
        (fun p => spec_lr p.1 p.2 st.total_size st.step_ratio st.step_size_up
          st.step_size_down s) := by
  have hgl : (OneCycleScheduler.get_lr st s opt).2.param_groups =
      writeMomentums opt.param_groups
        ((st.base_momentums.zip st.max_momentums).map
          (fun p => computeMomentum st s p.1 p.2)) := by
    simp [OneCycleScheduler.get_lr, hcm]
  have hv : i < ((st.base_momentums.zip st.max_momentums).map
      (fun p => computeMomentum st s p.1 p.2)).length := by
    simpa using ⟨hbi, hmi⟩
  have hq : (OneCycleScheduler.get_lr st s opt).2.param_groups[i]? =
      some { opt.param_groups[i] with
        momentum := some (computeMomentum st s st.base_momentums[i] st.max_momentums[i]) } := by
    rw [hgl, writeMomentums_getElem? opt.param_groups _ i hgi hv]
    simp only [List.getElem_map, List.getElem_zip]
  have hg3 : (OneCycleScheduler.get_lr st s opt).2.param_groups[i] =
      { opt.param_groups[i] with
        momentum := some (computeMomentum st s st.base_momentums[i] st.max_momentums[i]) } :=
    Option.some.inj ((List.getElem?_eq_getElem hgi2).symm.trans hq)
  refine ⟨?_, ?_, ?_⟩
  · rw [hg3]
    simp [computeMomentum, spec_momentum, annealing_cos, cosine_anneal]
  · rw [hg3]
  · rw [get_lr_fst]
    simp only [computeLr, spec_lr, annealing_cos, cosine_anneal]

/-- C4 witness: the scenario at step 0, group 0 — momentum `0.95` written
into the group, `lr` entry untouched, returned list `[0.004, 0.004]`. -/
theorem momentum_inverted_written_not_returned_witness :
    stTwo.cycle_momentum = true ∧
    0 < stTwo.base_momentums.length ∧ 0 < stTwo.max_momentums.length ∧
    0 < optTwoAfter.param_groups.length ∧
    ((OneCycleScheduler.get_lr stTwo 0 optTwoAfter).2.param_groups[0]?).map
      ParamGroup.momentum = some (some 0.95) ∧
    ((OneCycleScheduler.get_lr stTwo 0 optTwoAfter).2.param_groups[0]?).map
      ParamGroup.lr = some 0.004 ∧
    (OneCycleScheduler.get_lr stTwo 0 optTwoAfter).1 = [0.004, 0.004] := by
  have hlen : 0 <
      (OneCycleScheduler.get_lr stTwo 0 optTwoAfter).2.param_groups.length := by
    simp [OneCycleScheduler.get_lr, stTwo, optTwoAfter, length_writeMomentums]
  have h := momentum_inverted_written_not_returned stTwo 0 optTwoAfter 0 rfl
    (by norm_num [stTwo]) (by norm_num [stTwo]) (by norm_num [optTwoAfter]) hlen
  obtain ⟨hmom, hlr, hlst⟩ := h
  refine ⟨rfl, by norm_num [stTwo], by norm_num [stTwo],
    by norm_num [optTwoAfter], ?_, ?_, ?_⟩
  · rw [List.getElem?_eq_getElem hlen, Option.map_some', hmom]
    have : spec_momentum stTwo.base_momentums[0] stTwo.max_momentums[0]
        stTwo.total_size stTwo.step_ratio stTwo.step_size_up
        stTwo.step_size_down 0 = 0.95 := by
      norm_num [stTwo, spec_momentum, cosine_anneal]
    rw [this]
  · rw [List.getElem?_eq_getElem hlen, Option.map_some', hlr]
    norm_num [optTwoAfter]
  · rw [hlst]
    have e1 : stTwo.base_lrs.zip stTwo.max_lrs = [(0.004, 0.1), (0.004, 0.1)] := rfl
    rw [e1]
    have e2 : ∀ a b : ℝ, spec_lr a b stTwo.total_size stTwo.step_ratio
        stTwo.step_size_up stTwo.step_size_down 0 = a := by
      intro a b
      norm_num [stTwo, spec_lr, cosine_anneal]
    simp only [List.map_cons, List.map_nil]
    rw [e2]

/-! ## C10 — computing the learning rates always mutates the optimizer -/

/-- C10: whenever `cycle_momentum` is on and the momentum arrays match the
group count, any invocation of `get_lr` — including one made only to read
the current rates — replaces every parameter group's momentum entry with
the value computed for the current step index; reading the learning rates
is not side-effect free on the optimizer. -/
theorem get_lr_writes_momentum_every_call (st : SchedState) (s : ℝ)
    (opt : Optimizer) (hcm : st.cycle_momentum = true)
    (hbl : st.base_momentums.length = opt.param_groups.length)
    (hml : st.max_momentums.length = opt.param_groups.length) :
    (OneCycleScheduler.get_lr st s opt).2.param_groups =
      (opt.param_groups.zip (st.base_momentums.zip st.max_momentums)).map
        (fun q => { q.1 with momentum := some (computeMomentum st s q.2.1 q.2.2) }) := by
  have hgl : (OneCycleScheduler.get_lr st s opt).2.param_groups =
      writeMomentums opt.param_groups
        ((st.base_momentums.zip st.max_momentums).map
          (fun p => computeMomentum st s p.1 p.2)) := by
    simp [OneCycleScheduler.get_lr, hcm]
  rw [hgl, writeMomentums_eq_zip_map _ _ (by simp [hbl, hml]),
    List.zip_map_right, List.map_map]
  rfl

/-- C10 witness: the scenario at step 0 — the groups' stored momentum 0.85
is overwritten with 0.95 by a pure rate read. -/
theorem get_lr_writes_momentum_every_call_witness :
    stTwo.cycle_momentum = true ∧
    stTwo.base_momentums.length = optTwoAfter.param_groups.length ∧
    stTwo.max_momentums.length = optTwoAfter.param_groups.length ∧
    (OneCycleScheduler.get_lr stTwo 0 optTwoAfter).2.param_groups =
      [{ lr := 0.004, momentum := some 0.95 },
       { lr := 0.004, momentum := some 0.95 }] := by
  have h := get_lr_writes_momentum_every_call stTwo 0 optTwoAfter rfl
    (by norm_num [stTwo, optTwoAfter]) (by norm_num [stTwo, optTwoAfter])
  refine ⟨rfl, by norm_num [stTwo, optTwoAfter],
    by norm_num [stTwo, optTwoAfter], ?_⟩
  rw [h]
  have e1 : optTwoAfter.param_groups.zip
      (stTwo.base_momentums.zip stTwo.max_momentums) =
      [({ lr := 0.004, momentum := some 0.85 }, (0.85, 0.95)),
       ({ lr := 0.004, momentum := some 0.85 }, (0.85, 0.95))] := rfl
  rw [e1]
  have e2 : computeMomentum stTwo 0 0.85 0.95 = 0.95 := by
    norm_num [stTwo, computeMomentum, annealing_cos]
  simp only [List.map_cons, List.map_nil]
  rw [e2]

/-- On a resume (`last_epoch != -1`) the momentum block returns the groups
it was given, untouched. -/
theorem momGroups_ok_of_resume (opt : Optimizer) (cm : Bool) (bm : ParamArg)
    (le : ℤ) (gs gs2 : List ParamGroup) (hle : le ≠ -1)
    (h : momGroups opt cm bm le gs = Except.ok gs2) : gs2 = gs := by
  simp only [momGroups, if_neg hle] at h
  repeat' split at h
  all_goals cases h
  all_goals rfl

/-! ## C6 — resuming skips the writes but still snapshots momentum -/

/-- C6: when constructed with `last_epoch != -1`, `__init__` leaves every
parameter group exactly as it found it — no `base_lr` or `base_momentum`
is written — and the `base_momentums` state it stores is still read off
whatever momentum values are currently in the groups. -/
theorem resume_skips_writes_but_snapshots_momentum (opt : Optimizer)
    (max_lr : ParamArg) (T : ℤ) (ps df : ℝ) (cm : Bool) (bm mm : ParamArg)
    (le : ℤ) (st : SchedState) (opt' : Optimizer) (hle : le ≠ -1)
    (hinit : OneCycleScheduler.init opt max_lr T ps df cm bm mm le =
      Except.ok (st, opt')) :
    opt'.param_groups = opt.param_groups ∧
    opt.param_groups.map ParamGroup.momentum = st.base_momentums.map some := by
  simp only [OneCycleScheduler.init, if_neg hle] at hinit
  cases hdiv : paramDiv max_lr df with
  | error e => rw [hdiv] at hinit; simp at hinit
  | ok start_lr =>
    rw [hdiv] at hinit
    simp only [] at hinit
    rw [show format_param "base_lr" opt.param_groups.length
      (ParamArg.scalar start_lr) = Except.ok (List.replicate
      opt.param_groups.length start_lr) from rfl] at hinit
    simp only [] at hinit
    cases hmax : format_param "max_lr" opt.param_groups.length max_lr with
    | error e => rw [hmax] at hinit; simp at hinit
    | ok max_lrs =>
      rw [hmax] at hinit
      simp only [] at hinit
      cases hmom : momGroups opt cm bm le opt.param_groups with
      | error e => rw [hmom] at hinit; simp at hinit
      | ok groups2 =>
        rw [hmom] at hinit
        simp only [] at hinit
        cases hread : readMomentums groups2 with
        | error e => rw [hread] at hinit; simp at hinit
        | ok ms =>
          rw [hread] at hinit
          simp only [] at hinit
          cases hmm2 : format_param "max_momentum" opt.param_groups.length
              mm with
          | error e => rw [hmm2] at hinit; simp at hinit
          | ok mms =>
            rw [hmm2] at hinit
            simp only [] at hinit
            have hg : groups2 = opt.param_groups :=
              momGroups_ok_of_resume opt cm bm le opt.param_groups groups2
                hle hmom
            subst hg
            cases hinit
            exact ⟨rfl, by simpa using readMomentums_ok _ _ hread⟩

/-- The scheduler state a resume at step 5 of the scenario produces: the
`base_momentums` snapshot comes from the groups' current momentum 0.9, not
from the supplied `base_momentum=0.85`. -/
noncomputable def stTwoResume : SchedState :=
  { base_lrs := [0.004, 0.004]
    max_lrs := [0.1, 0.1]
    step_size_up := 30
    step_size_down := 70
    total_size := 100
    step_ratio := 0.3
    cycle_momentum := true
    base_momentums := [0.9, 0.9]
    max_momentums := [0.95, 0.95] }

/-- Evaluating the resumed construction: the optimizer comes back
untouched. -/
theorem initTwoResume_eval :
    OneCycleScheduler.init optTwo (ParamArg.scalar 0.1) 100 0.3 25 true
        (ParamArg.scalar 0.85) (ParamArg.scalar 0.95) 5 =
      Except.ok (stTwoResume, optTwo) := by
  norm_num [OneCycleScheduler.init, momGroups, paramDiv, format_param,
    optTwo, stTwoResume, writeLrs, writeMomentums, readMomentums,
    List.replicate]

/-- C6 witness: resuming the scenario at step 5 — the groups keep
`lr = 0.1` and `momentum = 0.9`, and the snapshot holds the groups' 0.9. -/
theorem resume_skips_writes_but_snapshots_momentum_witness :
    (5 : ℤ) ≠ -1 ∧
    optTwo.param_groups.map ParamGroup.momentum =
      stTwoResume.base_momentums.map some ∧
    stTwoResume.base_momentums = [0.9, 0.9] ∧
    optTwo.param_groups.map ParamGroup.lr = [0.1, 0.1] := by
  have h := resume_skips_writes_but_snapshots_momentum optTwo
    (ParamArg.scalar 0.1) 100 0.3 25 true (ParamArg.scalar 0.85)
    (ParamArg.scalar 0.95) 5 stTwoResume optTwo (by decide) initTwoResume_eval
  exact ⟨by decide, h.2, rfl, rfl⟩

/-! ## C5 — monotone ramp-up then monotone ramp-down -/

/-- C5: for a group with `base_lr < max_lr`, the step policy's learning
rate is non-decreasing while the step index ranges over
`[0, step_size_up]` and non-increasing over `[step_size_up, total_steps]`
(for any scheduler state whose derived step sizes are consistent with a
`total_steps > 0` and `pct_start` in (0,1) configuration). -/
theorem lr_monotone_phases (st : SchedState) (base_lr max_lr s1 s2 : ℝ)
    (hup : st.step_size_up = st.total_size * st.step_ratio)
    (hdown : st.step_size_down = st.total_size - st.step_size_up)
    (htot : 0 < st.total_size) (hr0 : 0 < st.step_ratio)
    (hr1 : st.step_ratio < 1) (hbm : base_lr < max_lr) :
    (0 ≤ s1 → s1 ≤ s2 → s2 ≤ st.step_size_up →
      computeLr st s1 base_lr max_lr ≤ computeLr st s2 base_lr max_lr) ∧
    (st.step_size_up ≤ s1 → s1 ≤ s2 → s2 ≤ st.total_size →
      computeLr st s2 base_lr max_lr ≤ computeLr st s1 base_lr max_lr) := by
  have huppos : 0 < st.step_size_up := by
    rw [hup]
    exact mul_pos htot hr0
  have hdownpos : 0 < st.step_size_down := by
    rw [hdown, hup]
    nlinarith
  have hbranch : ∀ x : ℝ,
      x / st.total_size ≤ st.step_ratio ↔ x ≤ st.step_size_up := by
    intro x
    rw [div_le_iff₀ htot, hup, mul_comm st.step_ratio st.total_size]
  have key : ∀ p q : ℝ, 0 ≤ p → p ≤ q → q ≤ 1 →
      Real.cos (Real.pi * q) ≤ Real.cos (Real.pi * p) := by
    intro p q hp hpq hq1
    apply Real.cos_le_cos_of_nonneg_of_le_pi
    · exact mul_nonneg Real.pi_pos.le hp
    · calc Real.pi * q ≤ Real.pi * 1 :=
            mul_le_mul_of_nonneg_left hq1 Real.pi_pos.le
        _ = Real.pi := mul_one _
    · exact mul_le_mul_of_nonneg_left hpq Real.pi_pos.le
  have hvup : ∀ x : ℝ, x ≤ st.step_size_up →
      computeLr st x base_lr max_lr =
        annealing_cos base_lr max_lr (x / st.step_size_up) := by
    intro x hx
    simp only [computeLr]
    rw [if_pos ((hbranch x).mpr hx)]
  have hvdown : ∀ x : ℝ, st.step_size_up ≤ x →
      computeLr st x base_lr max_lr =
        annealing_cos max_lr base_lr
          ((x - st.step_size_up) / st.step_size_down) := by
    intro x hx
    rcases eq_or_lt_of_le hx with heq | hlt
    · rw [← heq, hvup st.step_size_up le_rfl, div_self (ne_of_gt huppos),
        annealing_cos_one, sub_self, zero_div, annealing_cos_zero]
    · have hc : ¬ (x / st.total_size ≤ st.step_ratio) := by
        rw [hbranch x]
        exact not_le.mpr hlt
      simp only [computeLr]
      rw [if_neg hc]
  constructor
  · intro h0 h12 h2
    rw [hvup s1 (h12.trans h2), hvup s2 h2]
    have hcos := key (s1 / st.step_size_up) (s2 / st.step_size_up)
      (div_nonneg h0 huppos.le) ((div_le_div_right huppos).mpr h12)
      ((div_le_one huppos).mpr h2)
    have hmul := mul_le_mul_of_nonpos_left hcos
      (show (base_lr - max_lr) / 2 ≤ 0 by linarith)
    simp only [annealing_cos]
    linarith
  · intro h1 h12 h2
    rw [hvdown s1 h1, hvdown s2 (h1.trans h12)]
    have hcos := key ((s1 - st.step_size_up) / st.step_size_down)
      ((s2 - st.step_size_up) / st.step_size_down)
      (div_nonneg (by linarith) hdownpos.le)
      ((div_le_div_right hdownpos).mpr (by linarith))
      ((div_le_one hdownpos).mpr (by rw [hdown]; linarith))
    have hmul := mul_le_mul_of_nonneg_left hcos
      (show (0 : ℝ) ≤ (max_lr - base_lr) / 2 by linarith)
    simp only [annealing_cos]
    linarith

/-- C5 witness: the scenario state — rising on `[0, 30]` (sampled at 0 and
15), falling on `[30, 100]` (sampled at 30 and 100). -/
theorem lr_monotone_phases_witness :
    stTwo.step_size_up = stTwo.total_size * stTwo.step_ratio ∧
    stTwo.step_size_down = stTwo.total_size - stTwo.step_size_up ∧
    (0 : ℝ) < stTwo.total_size ∧ (0 : ℝ) < stTwo.step_ratio ∧
    stTwo.step_ratio < 1 ∧ (0.004 : ℝ) < 0.1 ∧
    computeLr stTwo 0 0.004 0.1 ≤ computeLr stTwo 15 0.004 0.1 ∧
    computeLr stTwo 100 0.004 0.1 ≤ computeLr stTwo 30 0.004 0.1 := by
  have hA := lr_monotone_phases stTwo 0.004 0.1 0 15 (by norm_num [stTwo])
    (by norm_num [stTwo]) (by norm_num [stTwo]) (by norm_num [stTwo])
    (by norm_num [stTwo]) (by norm_num)
  have hB := lr_monotone_phases stTwo 0.004 0.1 30 100 (by norm_num [stTwo])
    (by norm_num [stTwo]) (by norm_num [stTwo]) (by norm_num [stTwo])
    (by norm_num [stTwo]) (by norm_num)
  exact ⟨by norm_num [stTwo], by norm_num [stTwo], by norm_num [stTwo],
    by norm_num [stTwo], by norm_num [stTwo], by norm_num,
    hA.1 le_rfl (by norm_num) (by norm_num [stTwo]),
    hB.2 (by norm_num [stTwo]) (by norm_num) (by norm_num [stTwo])⟩
